import Mathlib

/-!
Shallow embedding of `prometheus_fastapi_instrumentator/metrics.py`.

The module defines an `Info` context object, a pure helper
`_build_label_attribute_names`, and five metric factory functions
(`latency`, `request_size`, `response_size`, `combined_size`, `full`),
each returning an instrumentation closure taking an `Info`.

Modelling conventions:
* HTTP headers are association lists of string pairs; `headers.get(k, d)`
  is a first-match lookup returning `Option String`.
* A Python `Response or None` field becomes `Option Headers` (only the
  headers of the response are ever read by this module).
* Python exceptions (`ValueError` from `int(...)` and from duplicate
  metric registration, `AttributeError` from `None.headers`,
  `IndexError` from `()[-1]`) become the `PyErr` type; fallible code
  returns `Except PyErr _`.
* Python `int(str)` becomes `pyInt : String -> Option Int`: surrounding
  whitespace stripped, optional sign, at least one decimal digit.
  (Underscore digit grouping of Python numerals is not modelled; no
  claim exercises it.)
* Durations are rationals; histogram bucket boundaries are `Bound`
  (a rational or positive infinity), mirroring the way `float("inf")`
  compares equal only to itself among the bucket values used here.
* A metric collector is a record of its name, label names, (buckets,)
  and the list of recorded samples; `labels(v...).observe(x)` appends
  `(v..., x)` to the sample list, `Counter.inc(n)` adds to a running
  value (and, as in prometheus_client, rejects negative amounts).
* The process-wide default registry of prometheus_client is the list of
  registered collector names, threaded through each factory; registering
  a duplicate name raises `ValueError` (the construction-time contract
  the spec states for the external collector library).
-/

/-- Python exception kinds that the embedded code can raise. -/
inductive PyErr where
  | valueError
  | attributeError
  | indexError
deriving DecidableEq, Repr

/-- HTTP headers as an association list of (key, value) pairs. -/
abbrev Headers := List (String × String)

/-- Python `headers.get(key, None)`: first value under `key`, if any. -/
def headers_get (h : Headers) (key : String) : Option String :=
  match h with
  | [] => none
  | (k, v) :: rest => if k = key then some v else headers_get rest key

/-- Python truthiness of an optional string: `None` and `""` are falsy. -/
def truthy (o : Option String) : Bool :=
  match o with
  | none => false
  | some s => !(s == "")

/-- Value of a decimal digit character. -/
def digitVal (c : Char) : Nat := c.toNat - '0'.toNat

/-- Natural number denoted by a list of decimal digit characters. -/
def digitsToNat (cs : List Char) : Nat :=
  cs.foldl (fun n c => 10 * n + digitVal c) 0

/-- Python whitespace characters stripped by `int(str)`. -/
def pyWhitespace (c : Char) : Bool :=
  c = ' ' || c = '\t' || c = '\n' || c = '\r' || c = '\x0b' || c = '\x0c'

/-- Strip leading and trailing whitespace from a character list. -/
def pyStrip (cs : List Char) : List Char :=
  ((cs.dropWhile pyWhitespace).reverse.dropWhile pyWhitespace).reverse

/-- Python `int(s)` on a string: strip surrounding whitespace, optional
sign, then at least one decimal digit; `none` models `ValueError`. -/
def pyInt (s : String) : Option Int :=
  match pyStrip s.toList with
  | [] => none
  | c :: rest =>
    if c = '-' then
      if rest ≠ [] ∧ rest.all Char.isDigit then some (-(digitsToNat rest : Int)) else none
    else if c = '+' then
      if rest ≠ [] ∧ rest.all Char.isDigit then some ((digitsToNat rest : Int)) else none
    else
      if (c :: rest).all Char.isDigit then some ((digitsToNat (c :: rest) : Int)) else none

/-- Python `int(s)` as a fallible computation raising `ValueError`. -/
def pyIntE (s : String) : Except PyErr Int :=
  match pyInt s with
  | some n => Except.ok n
  | none => Except.error PyErr.valueError

/-- Full bucket boundary: a finite rational bound or `float("inf")`. -/
inductive Bound where
  | val : Rat → Bound
  | inf : Bound
deriving DecidableEq, Repr

/-- Per-request context object (`Info` in metrics.py): request headers,
optional response (headers), raw method, and the normalized handler,
status and duration produced by the instrumentator. -/
structure Info where
  request : Headers
  response : Option Headers
  method : String
  modified_handler : String
  modified_status : String
  modified_duration : Rat

/-- Python `getattr(info, name)` for the three attribute names produced by
`_build_label_attribute_names` (the only names the closures pass). -/
def pgetattr (info : Info) (name : String) : String :=
  if name = "modified_handler" then info.modified_handler
  else if name = "method" then info.method
  else if name = "modified_status" then info.modified_status
  else ""

/-- Builds up the tuple of label names and `Info` attribute names from the
three inclusion flags (metrics.py lines 42-77). -/
def _build_label_attribute_names (should_include_handler should_include_method should_include_status : Bool) : List String × List String :=
  let step1 : List String × List String :=
    if should_include_handler then (["handler"], ["modified_handler"]) else ([], [])
  let step2 : List String × List String :=
    if should_include_method then (step1.1 ++ ["method"], step1.2 ++ ["method"]) else step1
  let step3 : List String × List String :=
    if should_include_status then (step2.1 ++ ["status"], step2.2 ++ ["modified_status"]) else step2
  step3

/-- Process-wide set of registered collector names (prometheus_client
default registry, reduced to the name-uniqueness contract). -/
abbrev Registry := List String

/-- Registering a collector name: duplicate names raise `ValueError` at
construction time (the external registry contract stated by the spec). -/
def register (name : String) (reg : Registry) : Except PyErr Registry :=
  if name ∈ reg then Except.error PyErr.valueError else Except.ok (name :: reg)

/-- Summary collector: name, label names, and recorded samples, each a
pair of label values and observed value. -/
structure Summary where
  name : String
  labelnames : List String
  observations : List (List String × Int)
deriving DecidableEq, Repr

/-- Python `METRIC.labels(lv...).observe(n)` (or plain `METRIC.observe(n)`
with `lv = []`): append one sample. -/
def Summary.observeWith (M : Summary) (lv : List String) (n : Int) : Summary :=
  { M with observations := M.observations ++ [(lv, n)] }

/-- Histogram collector: name, label names, bucket boundaries, and
recorded samples. -/
structure Histogram where
  name : String
  labelnames : List String
  buckets : List Bound
  observations : List (List String × Rat)
deriving DecidableEq, Repr

/-- Python `METRIC.labels(lv...).observe(x)` on a histogram. -/
def Histogram.observeWith (H : Histogram) (lv : List String) (x : Rat) : Histogram :=
  { H with observations := H.observations ++ [(lv, x)] }

/-- Counter collector: name, label names, running value. -/
structure Counter where
  name : String
  labelnames : List String
  value : Int
deriving DecidableEq, Repr

/-- Python `COUNTER.inc(n)`: prometheus_client rejects negative
increments with `ValueError`. -/
def Counter.incBy (c : Counter) (n : Int) : Except PyErr Counter :=
  if n < 0 then Except.error PyErr.valueError else Except.ok { c with value := c.value + n }

/-- The `buckets[-1] != float("inf")` append step shared by `latency`
(lines 105-106) and `full` (lines 328-332); `()[-1]` on an empty tuple
raises `IndexError`. -/
def appendInf (bs : List Bound) : Except PyErr (List Bound) :=
  match bs.getLast? with
  | none => Except.error PyErr.indexError
  | some b => Except.ok (if b = Bound.inf then bs else bs ++ [Bound.inf])

/-- Observation step shared by the summary closures (metrics.py lines
165-171, 210-216, 266-272): look up the configured label values on the
`Info` and record the value on the labelled child, or record on the base
collector when no labels are configured. -/
def summary_observe (label_names info_attribute_names : List String) (info : Info) (METRIC : Summary) (n : Int) : Summary :=
  if label_names ≠ [] then
    METRIC.observeWith (info_attribute_names.map (pgetattr info)) n
  else
    METRIC.observeWith [] n

/-- Factory `latency` (lines 83-128): bucket append, label resolution,
histogram construction (registering the metric name). -/
def latency (metric_name : String) (should_include_handler should_include_method should_include_status : Bool) (buckets : List Bound) (reg : Registry) : Except PyErr (Registry × Histogram) :=
  match appendInf buckets with
  | Except.error e => Except.error e
  | Except.ok buckets =>
    let label_names := (_build_label_attribute_names should_include_handler should_include_method should_include_status).1
    match register metric_name reg with
    | Except.error e => Except.error e
    | Except.ok reg =>
      Except.ok (reg, { name := metric_name, labelnames := label_names, buckets := buckets, observations := [] })

/-- Closure returned by `latency` (lines 119-126), with the captured
label configuration re-derived from the factory flags; records
`modified_duration`, never fails. -/
def latency_instrumentation (should_include_handler should_include_method should_include_status : Bool) (info : Info) (METRIC : Histogram) : Histogram :=
  let lans := _build_label_attribute_names should_include_handler should_include_method should_include_status
  if lans.1 ≠ [] then
    METRIC.observeWith (lans.2.map (pgetattr info)) info.modified_duration
  else
    METRIC.observeWith [] info.modified_duration

/-- Factory `request_size` (lines 131-160): label resolution and summary
construction (registering the metric name). -/
def request_size (metric_name : String) (should_include_handler should_include_method should_include_status : Bool) (reg : Registry) : Except PyErr (Registry × Summary) :=
  let label_names := (_build_label_attribute_names should_include_handler should_include_method should_include_status).1
  match register metric_name reg with
  | Except.error e => Except.error e
  | Except.ok reg =>
    Except.ok (reg, { name := metric_name, labelnames := label_names, observations := [] })

/-- Closure returned by `request_size` (lines 162-172): skip when the
request carries no `Content-Length`, otherwise parse it (`ValueError`
propagates) and record it. -/
def request_size_instrumentation (should_include_handler should_include_method should_include_status : Bool) (info : Info) (METRIC : Summary) : Except PyErr Summary :=
  let lans := _build_label_attribute_names should_include_handler should_include_method should_include_status
  match headers_get info.request "Content-Length" with
  | none => Except.ok METRIC
  | some content_length =>
    match pyIntE content_length with
    | Except.error e => Except.error e
    | Except.ok n => Except.ok (summary_observe lans.1 lans.2 info METRIC n)

/-- Factory `response_size` (lines 176-205); identical construction to
`request_size` up to defaults. -/
def response_size (metric_name : String) (should_include_handler should_include_method should_include_status : Bool) (reg : Registry) : Except PyErr (Registry × Summary) :=
  let label_names := (_build_label_attribute_names should_include_handler should_include_method should_include_status).1
  match register metric_name reg with
  | Except.error e => Except.error e
  | Except.ok reg =>
    Except.ok (reg, { name := metric_name, labelnames := label_names, observations := [] })

/-- Closure returned by `response_size` (lines 207-217): dereferences
`info.response.headers` unconditionally (`AttributeError` when the
response is `None`), then the same skip/parse/record logic as
`request_size`. -/
def response_size_instrumentation (should_include_handler should_include_method should_include_status : Bool) (info : Info) (METRIC : Summary) : Except PyErr Summary :=
  let lans := _build_label_attribute_names should_include_handler should_include_method should_include_status
  match info.response with
  | none => Except.error PyErr.attributeError
  | some resp =>
    match headers_get resp "Content-Length" with
    | none => Except.ok METRIC
    | some content_length =>
      match pyIntE content_length with
      | Except.error e => Except.error e
      | Except.ok n => Except.ok (summary_observe lans.1 lans.2 info METRIC n)

/-- Factory `combined_size` (lines 221-250); identical construction to
`request_size` up to defaults. -/
def combined_size (metric_name : String) (should_include_handler should_include_method should_include_status : Bool) (reg : Registry) : Except PyErr (Registry × Summary) :=
  let label_names := (_build_label_attribute_names should_include_handler should_include_method should_include_status).1
  match register metric_name reg with
  | Except.error e => Except.error e
  | Except.ok reg =>
    Except.ok (reg, { name := metric_name, labelnames := label_names, observations := [] })

/-- The truthiness cascade of `combined_size` (lines 256-263): both
header values truthy means sum, one truthy means that one, neither means
no observation; `int(...)` failures propagate. -/
def combined_content_length (request_cl response_cl : Option String) : Except PyErr (Option Int) :=
  if truthy request_cl && truthy response_cl then
    match pyIntE (request_cl.getD "") with
    | Except.error e => Except.error e
    | Except.ok a =>
      match pyIntE (response_cl.getD "") with
      | Except.error e => Except.error e
      | Except.ok b => Except.ok (some (a + b))
  else if truthy request_cl then
    match pyIntE (request_cl.getD "") with
    | Except.error e => Except.error e
    | Except.ok a => Except.ok (some a)
  else if truthy response_cl then
    match pyIntE (response_cl.getD "") with
    | Except.error e => Except.error e
    | Except.ok b => Except.ok (some b)
  else
    Except.ok none

/-- Closure returned by `combined_size` (lines 252-273): reads both
`Content-Length` headers (dereferencing `info.response.headers`
unconditionally), resolves the three-way fallback, and records the
result when it is not `None`. -/
def combined_size_instrumentation (should_include_handler should_include_method should_include_status : Bool) (info : Info) (METRIC : Summary) : Except PyErr Summary :=
  let lans := _build_label_attribute_names should_include_handler should_include_method should_include_status
  match info.response with
  | none => Except.error PyErr.attributeError
  | some resp =>
    let request_cl := headers_get info.request "Content-Length"
    let response_cl := headers_get resp "Content-Length"
    match combined_content_length request_cl response_cl with
    | Except.error e => Except.error e
    | Except.ok none => Except.ok METRIC
    | Except.ok (some content_length) => Except.ok (summary_observe lans.1 lans.2 info METRIC content_length)

/-- The five collectors registered by one `full` factory call. -/
structure FullCollectors where
  total : Counter
  in_size : Counter
  out_size : Counter
  latency_highr : Histogram
  latency_lowr : Histogram
deriving DecidableEq, Repr

/-- Python `int(headers.get("Content-Length", 0))` used by `full`
(lines 356-357): the integer default `0` passes `int` unchanged, a
present string value is parsed (`ValueError` propagates). -/
def pyIntDefault0 (o : Option String) : Except PyErr Int :=
  match o with
  | none => Except.ok 0
  | some s => pyIntE s

/-- Factory `full` (lines 277-352): bucket appends on both tuples, then
registration of the five fixed-name collectors in source order. -/
def full (latency_highr_buckets latency_lowr_buckets : List Bound) (reg : Registry) : Except PyErr (Registry × FullCollectors) :=
  match appendInf latency_highr_buckets with
  | Except.error e => Except.error e
  | Except.ok highr_buckets =>
    match appendInf latency_lowr_buckets with
    | Except.error e => Except.error e
    | Except.ok lowr_buckets =>
      match register "http_requests_total" reg with
      | Except.error e => Except.error e
      | Except.ok reg =>
        match register "http_in_bytes_total" reg with
        | Except.error e => Except.error e
        | Except.ok reg =>
          match register "http_out_bytes_total" reg with
          | Except.error e => Except.error e
          | Except.ok reg =>
            match register "http_highr_request_duration_seconds" reg with
            | Except.error e => Except.error e
            | Except.ok reg =>
              match register "http_lowr_request_duration_seconds" reg with
              | Except.error e => Except.error e
              | Except.ok reg =>
                Except.ok (reg,
                  { total := { name := "http_requests_total", labelnames := [], value := 0 }
                    in_size := { name := "http_in_bytes_total", labelnames := [], value := 0 }
                    out_size := { name := "http_out_bytes_total", labelnames := [], value := 0 }
                    latency_highr := { name := "http_highr_request_duration_seconds", labelnames := [], buckets := highr_buckets, observations := [] }
                    latency_lowr := { name := "http_lowr_request_duration_seconds", labelnames := ["method", "status", "handler"], buckets := lowr_buckets, observations := [] } })

/-- Closure returned by `full` (lines 354-362): the five updates in
source order. An exception mid-way leaves the collectors updated so far
in place (Python state mutation), so the result is the reached state
paired with the raised exception, if any. -/
def full_instrumentation (col : FullCollectors) (info : Info) : FullCollectors × Option PyErr :=
  -- TOTAL.inc() increments by the default amount 1 and cannot fail.
  let col := { col with total := { col.total with value := col.total.value + 1 } }
  match pyIntDefault0 (headers_get info.request "Content-Length") with
  | Except.error e => (col, some e)
  | Except.ok n =>
    match col.in_size.incBy n with
    | Except.error e => (col, some e)
    | Except.ok in2 =>
      let col := { col with in_size := in2 }
      match info.response with
      | none => (col, some PyErr.attributeError)
      | some resp =>
        match pyIntDefault0 (headers_get resp "Content-Length") with
        | Except.error e => (col, some e)
        | Except.ok m =>
          match col.out_size.incBy m with
          | Except.error e => (col, some e)
          | Except.ok out2 =>
            let col := { col with out_size := out2 }
            let col := { col with latency_highr := col.latency_highr.observeWith [] info.modified_duration }
            let col := { col with latency_lowr := col.latency_lowr.observeWith [info.method, info.modified_status, info.modified_handler] info.modified_duration }
            (col, none)

/-- Concrete `Info` builder used by witnesses: fixed method, handler,
status and duration, varying headers. -/
def mkInfo (req : Headers) (resp : Option Headers) : Info :=
  { request := req, response := resp, method := "GET", modified_handler := "/items",
    modified_status := "2xx", modified_duration := 1/4 }

/-- Concrete summary collector used by witnesses. -/
def M0 : Summary :=
  { name := "http_combined_size_bytes", labelnames := ["handler", "method", "status"],
    observations := [] }

/-- Concrete labelled histogram used by witnesses, as built by the
`latency` factory under the name "m". -/
def latM : Histogram :=
  { name := "m", labelnames := ["handler", "method", "status"],
    buckets := [Bound.val 1, Bound.inf], observations := [] }

/-- Concrete histogram used by witnesses, as built by the `latency`
factory under the default metric name. -/
def latH : Histogram :=
  { name := "http_request_duration_seconds", labelnames := ["handler", "method", "status"],
    buckets := [Bound.val 1, Bound.inf], observations := [] }

/-- Registry contents after one successful `full` factory call on an
empty registry. -/
def regF : Registry :=
  ["http_lowr_request_duration_seconds", "http_highr_request_duration_seconds",
   "http_out_bytes_total", "http_in_bytes_total", "http_requests_total"]

/-- The five collectors as built by `full [Bound.val 1] [Bound.val 2]`
on an empty registry; also used as a concrete closure state. -/
def fcF : FullCollectors :=
  { total := { name := "http_requests_total", labelnames := [], value := 0 }
    in_size := { name := "http_in_bytes_total", labelnames := [], value := 0 }
    out_size := { name := "http_out_bytes_total", labelnames := [], value := 0 }
    latency_highr := { name := "http_highr_request_duration_seconds", labelnames := [],
                       buckets := [Bound.val 1, Bound.inf], observations := [] }
    latency_lowr := { name := "http_lowr_request_duration_seconds",
                      labelnames := ["method", "status", "handler"],
                      buckets := [Bound.val 2, Bound.inf], observations := [] } }

lemma register_ok {name : String} {reg reg2 : Registry} (h : register name reg = Except.ok reg2) :
    name ∉ reg ∧ reg2 = name :: reg := by
  unfold register at h
  split at h
  · cases h
  · exact ⟨by assumption, ((Except.ok.injEq _ _).mp h).symm⟩

lemma register_dup {name : String} {reg : Registry} (h : name ∈ reg) :
    register name reg = Except.error PyErr.valueError := by
  simp [register, h]

lemma appendInf_ok {bs bs2 : List Bound} (h : appendInf bs = Except.ok bs2) :
    (bs.getLast? = some Bound.inf → bs2 = bs) ∧
    (bs.getLast? ≠ some Bound.inf → bs2 = bs ++ [Bound.inf]) ∧
    bs2.getLast? = some Bound.inf := by
  unfold appendInf at h
  cases hl : bs.getLast? with
  | none => rw [hl] at h; cases h
  | some b =>
    rw [hl] at h
    injection h with h
    by_cases hb : b = Bound.inf
    · subst hb
      rw [if_pos rfl] at h
      subst h
      exact ⟨fun _ => rfl, fun hc => absurd rfl hc, hl⟩
    · rw [if_neg hb] at h
      subst h
      refine ⟨fun hc => absurd (by injection hc) hb, fun _ => rfl, ?_⟩
      rw [List.getLast?_append]
      simp

lemma latency_ok_elim {name : String} {a b c : Bool} {bs : List Bound} {reg reg2 : Registry} {H : Histogram}
    (h : latency name a b c bs reg = Except.ok (reg2, H)) :
    ∃ bks, appendInf bs = Except.ok bks ∧ name ∉ reg ∧ reg2 = name :: reg ∧
      H = { name := name, labelnames := (_build_label_attribute_names a b c).1,
            buckets := bks, observations := [] } := by
  unfold latency at h
  cases hap : appendInf bs with
  | error e => rw [hap] at h; cases h
  | ok bks =>
    rw [hap] at h
    cases hreg : register name reg with
    | error e => rw [hreg] at h; cases h
    | ok reg3 =>
      rw [hreg] at h
      obtain ⟨hmem, hr3⟩ := register_ok hreg
      injection h with h
      obtain ⟨h1, h2⟩ := Prod.mk.injEq .. |>.mp h
      exact ⟨bks, rfl, hmem, h1 ▸ hr3, h2.symm⟩

lemma request_size_ok_elim {name : String} {a b c : Bool} {reg reg2 : Registry} {M : Summary}
    (h : request_size name a b c reg = Except.ok (reg2, M)) :
    name ∉ reg ∧ reg2 = name :: reg ∧
      M = { name := name, labelnames := (_build_label_attribute_names a b c).1, observations := [] } := by
  unfold request_size at h
  cases hreg : register name reg with
  | error e => rw [hreg] at h; cases h
  | ok reg3 =>
    rw [hreg] at h
    obtain ⟨hmem, hr3⟩ := register_ok hreg
    injection h with h
    obtain ⟨h1, h2⟩ := Prod.mk.injEq .. |>.mp h
    exact ⟨hmem, h1 ▸ hr3, h2.symm⟩

lemma full_ok_elim {hb lb : List Bound} {reg reg2 : Registry} {fc : FullCollectors}
    (h : full hb lb reg = Except.ok (reg2, fc)) :
    ∃ hbk lbk, appendInf hb = Except.ok hbk ∧ appendInf lb = Except.ok lbk ∧
      "http_requests_total" ∉ reg ∧
      reg2 = "http_lowr_request_duration_seconds" :: "http_highr_request_duration_seconds" ::
             "http_out_bytes_total" :: "http_in_bytes_total" :: "http_requests_total" :: reg ∧
      fc = { total := { name := "http_requests_total", labelnames := [], value := 0 }
             in_size := { name := "http_in_bytes_total", labelnames := [], value := 0 }
             out_size := { name := "http_out_bytes_total", labelnames := [], value := 0 }
             latency_highr := { name := "http_highr_request_duration_seconds", labelnames := [],
                                buckets := hbk, observations := [] }
             latency_lowr := { name := "http_lowr_request_duration_seconds",
                               labelnames := ["method", "status", "handler"],
                               buckets := lbk, observations := [] } } := by
  cases hap1 : appendInf hb with
  | error e => simp [full, hap1] at h
  | ok hbk =>
    cases hap2 : appendInf lb with
    | error e => simp [full, hap1, hap2] at h
    | ok lbk =>
      cases hr1 : register "http_requests_total" reg with
      | error e => simp [full, hap1, hap2, hr1] at h
      | ok r1 =>
        cases hr2 : register "http_in_bytes_total" r1 with
        | error e => simp [full, hap1, hap2, hr1, hr2] at h
        | ok r2 =>
          cases hr3 : register "http_out_bytes_total" r2 with
          | error e => simp [full, hap1, hap2, hr1, hr2, hr3] at h
          | ok r3 =>
            cases hr4 : register "http_highr_request_duration_seconds" r3 with
            | error e => simp [full, hap1, hap2, hr1, hr2, hr3, hr4] at h
            | ok r4 =>
              cases hr5 : register "http_lowr_request_duration_seconds" r4 with
              | error e => simp [full, hap1, hap2, hr1, hr2, hr3, hr4, hr5] at h
              | ok r5 =>
                simp [full, hap1, hap2, hr1, hr2, hr3, hr4, hr5] at h
                obtain ⟨hm1, he1⟩ := register_ok hr1
                obtain ⟨_, he2⟩ := register_ok hr2
                obtain ⟨_, he3⟩ := register_ok hr3
                obtain ⟨_, he4⟩ := register_ok hr4
                obtain ⟨_, he5⟩ := register_ok hr5
                subst he1 he2 he3 he4 he5
                exact ⟨hbk, lbk, rfl, rfl, hm1, h.1.symm, h.2.symm⟩

lemma pyInt_some_ne_empty {s : String} {n : Int} (h : pyInt s = some n) : (s == "") = false := by
  by_cases he : s = ""
  · subst he
    rw [show pyInt "" = none from rfl] at h
    cases h
  · simp [he]

lemma truthy_of_pyInt {s : String} {n : Int} (h : pyInt s = some n) : truthy (some s) = true := by
  simp [truthy, pyInt_some_ne_empty h]

/-- C3: for all 8 combinations of the three flags, `_build_label_attribute_names`
returns two lists of equal length, ordered handler before method before status,
with label names "handler"/"method"/"status" paired positionally with attribute
names "modified_handler"/"method"/"modified_status". -/
theorem claim_C3_build_label_attribute_names (a b c : Bool) :
    ((_build_label_attribute_names a b c).1.length = (_build_label_attribute_names a b c).2.length) ∧
    List.Sublist ((_build_label_attribute_names a b c).1.zip (_build_label_attribute_names a b c).2)
      [("handler", "modified_handler"), ("method", "method"), ("status", "modified_status")] ∧
    (("handler", "modified_handler") ∈
      (_build_label_attribute_names a b c).1.zip (_build_label_attribute_names a b c).2 ↔ a = true) ∧
    (("method", "method") ∈
      (_build_label_attribute_names a b c).1.zip (_build_label_attribute_names a b c).2 ↔ b = true) ∧
    (("status", "modified_status") ∈
      (_build_label_attribute_names a b c).1.zip (_build_label_attribute_names a b c).2 ↔ c = true) := by
  cases a <;> cases b <;> cases c <;> decide

/-- C3 witness: the property instantiated at the flag combination
(true, false, true). -/
theorem claim_C3_witness :
    ((_build_label_attribute_names true false true).1.length = (_build_label_attribute_names true false true).2.length) ∧
    List.Sublist ((_build_label_attribute_names true false true).1.zip (_build_label_attribute_names true false true).2)
      [("handler", "modified_handler"), ("method", "method"), ("status", "modified_status")] ∧
    (("handler", "modified_handler") ∈
      (_build_label_attribute_names true false true).1.zip (_build_label_attribute_names true false true).2 ↔ true = true) ∧
    (("method", "method") ∈
      (_build_label_attribute_names true false true).1.zip (_build_label_attribute_names true false true).2 ↔ false = true) ∧
    (("status", "modified_status") ∈
      (_build_label_attribute_names true false true).1.zip (_build_label_attribute_names true false true).2 ↔ true = true) :=
  claim_C3_build_label_attribute_names true false true

/-- C1: the `combined_size` closure records the sum of the two Content-Length
values when both are present (as valid numerals), the single value when only
one is present, and nothing when neither is present. -/
theorem claim_C1_combined_size_fallback (a b c : Bool) (info : Info) (resp : Headers) (M : Summary)
    (hresp : info.response = some resp) :
    (∀ sa na sb nb,
      headers_get info.request "Content-Length" = some sa → pyInt sa = some na →
      headers_get resp "Content-Length" = some sb → pyInt sb = some nb →
      combined_size_instrumentation a b c info M = Except.ok
        (summary_observe (_build_label_attribute_names a b c).1
          (_build_label_attribute_names a b c).2 info M (na + nb))) ∧
    (∀ sa na,
      headers_get info.request "Content-Length" = some sa → pyInt sa = some na →
      headers_get resp "Content-Length" = none →
      combined_size_instrumentation a b c info M = Except.ok
        (summary_observe (_build_label_attribute_names a b c).1
          (_build_label_attribute_names a b c).2 info M na)) ∧
    (∀ sb nb,
      headers_get info.request "Content-Length" = none →
      headers_get resp "Content-Length" = some sb → pyInt sb = some nb →
      combined_size_instrumentation a b c info M = Except.ok
        (summary_observe (_build_label_attribute_names a b c).1
          (_build_label_attribute_names a b c).2 info M nb)) ∧
    (headers_get info.request "Content-Length" = none →
      headers_get resp "Content-Length" = none →
      combined_size_instrumentation a b c info M = Except.ok M) := by
  refine ⟨?_, ?_, ?_, ?_⟩
  · intro sa na sb nb hsa hna hsb hnb
    simp [combined_size_instrumentation, hresp, hsa, hsb, combined_content_length,
      truthy, pyInt_some_ne_empty hna, pyInt_some_ne_empty hnb, pyIntE, hna, hnb]
  · intro sa na hsa hna hres
    simp [combined_size_instrumentation, hresp, hsa, hres, combined_content_length,
      truthy, pyInt_some_ne_empty hna, pyIntE, hna]
  · intro sb nb hreq hsb hnb
    simp [combined_size_instrumentation, hresp, hreq, hsb, combined_content_length,
      truthy, pyInt_some_ne_empty hnb, pyIntE, hnb]
  · intro hreq hres
    simp [combined_size_instrumentation, hresp, hreq, hres, combined_content_length, truthy]

/-- C1 witness: request Content-Length 100 and response 50 record exactly
150; only request 100 records 100; neither records nothing. -/
theorem claim_C1_witness :
    combined_size_instrumentation true true true
      (mkInfo [("Content-Length", "100")] (some [("Content-Length", "50")])) M0 =
      Except.ok (summary_observe (_build_label_attribute_names true true true).1
        (_build_label_attribute_names true true true).2
        (mkInfo [("Content-Length", "100")] (some [("Content-Length", "50")])) M0 (100 + 50)) ∧
    combined_size_instrumentation true true true
      (mkInfo [("Content-Length", "100")] (some [])) M0 =
      Except.ok (summary_observe (_build_label_attribute_names true true true).1
        (_build_label_attribute_names true true true).2
        (mkInfo [("Content-Length", "100")] (some [])) M0 100) ∧
    combined_size_instrumentation true true true (mkInfo [] (some [])) M0 = Except.ok M0 :=
  ⟨(claim_C1_combined_size_fallback true true true
      (mkInfo [("Content-Length", "100")] (some [("Content-Length", "50")]))
      [("Content-Length", "50")] M0 rfl).1 "100" 100 "50" 50 rfl (by decide) rfl (by decide),
   (claim_C1_combined_size_fallback true true true
      (mkInfo [("Content-Length", "100")] (some [])) [] M0 rfl).2.1 "100" 100 rfl (by decide) rfl,
   (claim_C1_combined_size_fallback true true true
      (mkInfo [] (some [])) [] M0 rfl).2.2.2 rfl rfl⟩

/-- C2: each invocation of the `full` closure increments the
http_requests_total counter by exactly 1 regardless of headers, and leaves
the in-bytes (resp. out-bytes) counter unchanged (increment 0) when the
request's (resp. response's) Content-Length header is absent. -/
theorem claim_C2_full_counter_increments (col : FullCollectors) (info : Info) :
    ((full_instrumentation col info).1.total.value = col.total.value + 1) ∧
    (headers_get info.request "Content-Length" = none →
      (full_instrumentation col info).1.in_size.value = col.in_size.value) ∧
    (∀ resp, info.response = some resp → headers_get resp "Content-Length" = none →
      (full_instrumentation col info).1.out_size.value = col.out_size.value) := by
  refine ⟨?_, ?_, ?_⟩
  · cases h1 : pyIntDefault0 (headers_get info.request "Content-Length") with
    | error e => simp [full_instrumentation, h1]
    | ok n =>
      cases h2 : col.in_size.incBy n with
      | error e => simp [full_instrumentation, h1, h2]
      | ok in2 =>
        cases hr : info.response with
        | none => simp [full_instrumentation, h1, h2, hr]
        | some resp =>
          cases h3 : pyIntDefault0 (headers_get resp "Content-Length") with
          | error e => simp [full_instrumentation, h1, h2, hr, h3]
          | ok m =>
            cases h4 : col.out_size.incBy m with
            | error e => simp [full_instrumentation, h1, h2, hr, h3, h4]
            | ok out2 => simp [full_instrumentation, h1, h2, hr, h3, h4]
  · intro hreq
    have hz : pyIntDefault0 (headers_get info.request "Content-Length") = Except.ok 0 := by
      rw [hreq]; rfl
    have hinc : col.in_size.incBy 0 = Except.ok { col.in_size with value := col.in_size.value } := by
      simp [Counter.incBy]
    cases hr : info.response with
    | none => simp [full_instrumentation, hz, hinc, hr]
    | some resp =>
      cases h3 : pyIntDefault0 (headers_get resp "Content-Length") with
      | error e => simp [full_instrumentation, hz, hinc, hr, h3]
      | ok m =>
        cases h4 : col.out_size.incBy m with
        | error e => simp [full_instrumentation, hz, hinc, hr, h3, h4]
        | ok out2 => simp [full_instrumentation, hz, hinc, hr, h3, h4]
  · intro resp hresp hres
    have hz3 : pyIntDefault0 (headers_get resp "Content-Length") = Except.ok 0 := by
      rw [hres]; rfl
    have hinc : col.out_size.incBy 0 = Except.ok { col.out_size with value := col.out_size.value } := by
      simp [Counter.incBy]
    cases h1 : pyIntDefault0 (headers_get info.request "Content-Length") with
    | error e => simp [full_instrumentation, h1]
    | ok n =>
      cases h2 : col.in_size.incBy n with
      | error e => simp [full_instrumentation, h1, h2]
      | ok in2 => simp [full_instrumentation, h1, h2, hresp, hz3, hinc]

/-- C2 witness: on an `Info` with no Content-Length headers, the request
counter gains exactly 1 and both byte counters stay unchanged. -/
theorem claim_C2_witness :
    (full_instrumentation fcF (mkInfo [] (some []))).1.total.value = fcF.total.value + 1 ∧
    (full_instrumentation fcF (mkInfo [] (some []))).1.in_size.value = fcF.in_size.value ∧
    (full_instrumentation fcF (mkInfo [] (some []))).1.out_size.value = fcF.out_size.value :=
  ⟨(claim_C2_full_counter_increments fcF (mkInfo [] (some []))).1,
   (claim_C2_full_counter_increments fcF (mkInfo [] (some []))).2.1 rfl,
   (claim_C2_full_counter_increments fcF (mkInfo [] (some []))).2.2 [] rfl rfl⟩

/-- C4: when the relevant Content-Length header(s) are absent, the
`request_size`, `response_size` and `combined_size` closures leave the
collector state untouched (no sample is appended). -/
theorem claim_C4_skip_when_absent (a b c : Bool) (info : Info) (resp : Headers) (M : Summary)
    (hresp : info.response = some resp)
    (hreq : headers_get info.request "Content-Length" = none)
    (hres : headers_get resp "Content-Length" = none) :
    request_size_instrumentation a b c info M = Except.ok M ∧
    response_size_instrumentation a b c info M = Except.ok M ∧
    combined_size_instrumentation a b c info M = Except.ok M := by
  refine ⟨?_, ?_, ?_⟩
  · simp [request_size_instrumentation, hreq]
  · simp [response_size_instrumentation, hresp, hres]
  · simp [combined_size_instrumentation, hresp, hreq, hres, combined_content_length, truthy]

/-- C4 witness: the three size closures are no-ops on an `Info` carrying
no Content-Length headers. -/
theorem claim_C4_witness :
    request_size_instrumentation true true true (mkInfo [] (some [])) M0 = Except.ok M0 ∧
    response_size_instrumentation true true true (mkInfo [] (some [])) M0 = Except.ok M0 ∧
    combined_size_instrumentation true true true (mkInfo [] (some [])) M0 = Except.ok M0 :=
  claim_C4_skip_when_absent true true true (mkInfo [] (some [])) [] M0 rfl rfl rfl

/-- C5: the histograms built by `latency` and by `full` have bucket
sequences ending in positive infinity, obtained from the caller's tuple by
appending infinity exactly when the final boundary is not already infinity
and leaving the sequence otherwise unchanged. -/
theorem claim_C5_buckets_end_in_inf (bs lb : List Bound) (name : String) (a b c : Bool)
    (reg reg2 reg3 reg4 : Registry) (H : Histogram) (fc : FullCollectors)
    (hlat : latency name a b c bs reg = Except.ok (reg2, H))
    (hfull : full bs lb reg3 = Except.ok (reg4, fc)) :
    (bs.getLast? = some Bound.inf → H.buckets = bs ∧ fc.latency_highr.buckets = bs) ∧
    (bs.getLast? ≠ some Bound.inf →
      H.buckets = bs ++ [Bound.inf] ∧ fc.latency_highr.buckets = bs ++ [Bound.inf]) ∧
    (lb.getLast? = some Bound.inf → fc.latency_lowr.buckets = lb) ∧
    (lb.getLast? ≠ some Bound.inf → fc.latency_lowr.buckets = lb ++ [Bound.inf]) ∧
    H.buckets.getLast? = some Bound.inf ∧
    fc.latency_highr.buckets.getLast? = some Bound.inf ∧
    fc.latency_lowr.buckets.getLast? = some Bound.inf := by
  obtain ⟨bks, hap, _, _, hH⟩ := latency_ok_elim hlat
  obtain ⟨hbk, lbk, hap1, hap2, _, _, hfc⟩ := full_ok_elim hfull
  rw [hap] at hap1
  injection hap1 with hap1
  subst hap1 hfc hH
  obtain ⟨e1, e2, e3⟩ := appendInf_ok hap
  obtain ⟨f1, f2, f3⟩ := appendInf_ok hap2
  exact ⟨fun hc => ⟨e1 hc, e1 hc⟩, fun hc => ⟨e2 hc, e2 hc⟩, f1, f2, e3, e3, f3⟩

/-- C5 witness: a finite bucket tuple gets infinity appended by both
factories, and the resulting sequences end in infinity. -/
theorem claim_C5_witness :
    latH.buckets = [Bound.val 1] ++ [Bound.inf] ∧
    fcF.latency_highr.buckets = [Bound.val 1] ++ [Bound.inf] ∧
    fcF.latency_lowr.buckets = [Bound.val 2] ++ [Bound.inf] ∧
    latH.buckets.getLast? = some Bound.inf := by
  have h := claim_C5_buckets_end_in_inf [Bound.val 1] [Bound.val 2]
    "http_request_duration_seconds" true true true
    [] ["http_request_duration_seconds"] [] regF latH fcF (by rfl) (by rfl)
  exact ⟨(h.2.1 (by decide)).1, (h.2.1 (by decide)).2, h.2.2.2.1 (by decide), h.2.2.2.2.2.1⟩

/-- C6: one `full` factory call registers exactly the five collectors
http_requests_total, http_in_bytes_total, http_out_bytes_total,
http_highr_request_duration_seconds and http_lowr_request_duration_seconds;
the last carries exactly the labels (method, status, handler) and the other
four carry no labels. -/
theorem claim_C6_full_names_and_labels (hb lb : List Bound) (reg reg2 : Registry) (fc : FullCollectors)
    (h : full hb lb reg = Except.ok (reg2, fc)) :
    fc.total.name = "http_requests_total" ∧ fc.total.labelnames = [] ∧
    fc.in_size.name = "http_in_bytes_total" ∧ fc.in_size.labelnames = [] ∧
    fc.out_size.name = "http_out_bytes_total" ∧ fc.out_size.labelnames = [] ∧
    fc.latency_highr.name = "http_highr_request_duration_seconds" ∧
    fc.latency_highr.labelnames = [] ∧
    fc.latency_lowr.name = "http_lowr_request_duration_seconds" ∧
    fc.latency_lowr.labelnames = ["method", "status", "handler"] ∧
    reg2 = "http_lowr_request_duration_seconds" :: "http_highr_request_duration_seconds" ::
           "http_out_bytes_total" :: "http_in_bytes_total" :: "http_requests_total" :: reg := by
  obtain ⟨hbk, lbk, _, _, _, hreg, hfc⟩ := full_ok_elim h
  subst hfc
  exact ⟨rfl, rfl, rfl, rfl, rfl, rfl, rfl, rfl, rfl, rfl, hreg⟩

/-- C6 witness: the five collectors and registry contents of a concrete
`full` call on an empty registry. -/
theorem claim_C6_witness :
    fcF.total.name = "http_requests_total" ∧ fcF.total.labelnames = [] ∧
    fcF.in_size.name = "http_in_bytes_total" ∧ fcF.in_size.labelnames = [] ∧
    fcF.out_size.name = "http_out_bytes_total" ∧ fcF.out_size.labelnames = [] ∧
    fcF.latency_highr.name = "http_highr_request_duration_seconds" ∧
    fcF.latency_highr.labelnames = [] ∧
    fcF.latency_lowr.name = "http_lowr_request_duration_seconds" ∧
    fcF.latency_lowr.labelnames = ["method", "status", "handler"] ∧
    regF = "http_lowr_request_duration_seconds" :: "http_highr_request_duration_seconds" ::
           "http_out_bytes_total" :: "http_in_bytes_total" :: "http_requests_total" :: [] :=
  claim_C6_full_names_and_labels [Bound.val 1] [Bound.val 2] [] regF fcF (by rfl)

/-- C8: constructing a collector under a name already registered fails
with ValueError at factory-construction time for every factory, before
any observation exists; the failure is returned, not swallowed. -/
theorem claim_C8_duplicate_name_fails (name : String) (a b c : Bool) (bs hb lb : List Bound)
    (reg reg1 : Registry) (H : Histogram)
    (h1 : latency name a b c bs reg = Except.ok (reg1, H)) :
    latency name a b c bs reg1 = Except.error PyErr.valueError ∧
    request_size name a b c reg1 = Except.error PyErr.valueError ∧
    response_size name a b c reg1 = Except.error PyErr.valueError ∧
    combined_size name a b c reg1 = Except.error PyErr.valueError ∧
    (∀ reg2 fc, full hb lb reg = Except.ok (reg2, fc) →
      full hb lb reg2 = Except.error PyErr.valueError) := by
  obtain ⟨bks, hap, hmem, hreg1, _⟩ := latency_ok_elim h1
  have hmem1 : name ∈ reg1 := by rw [hreg1]; exact List.mem_cons_self _ _
  refine ⟨?_, ?_, ?_, ?_, ?_⟩
  · simp [latency, hap, register_dup hmem1]
  · simp [request_size, register_dup hmem1]
  · simp [response_size, register_dup hmem1]
  · simp [combined_size, register_dup hmem1]
  · intro reg2 fc h2
    obtain ⟨hbk, lbk, hap1, hap2, _, hreg2, _⟩ := full_ok_elim h2
    have hm : "http_requests_total" ∈ reg2 := by
      rw [hreg2]; simp
    simp [full, hap1, hap2, register_dup hm]

/-- C8 witness: after a first successful construction, a second
construction under the same name fails with ValueError, for a labelled
histogram factory, a summary factory and the composite factory. -/
theorem claim_C8_witness :
    latency "m" true true true [Bound.val 1] ["m"] = Except.error PyErr.valueError ∧
    request_size "m" true true true ["m"] = Except.error PyErr.valueError ∧
    full [Bound.val 1] [Bound.val 2] regF = Except.error PyErr.valueError := by
  have h := claim_C8_duplicate_name_fails "m" true true true
    [Bound.val 1] [Bound.val 1] [Bound.val 2] [] ["m"] latM (by rfl)
  exact ⟨h.1, h.2.1, h.2.2.2.2 regF fcF (by rfl)⟩

/-- C7 counterexample: an empty-string Content-Length on the request is
present but not a valid numeral, yet the `combined_size` closure treats it
as absent and returns successfully instead of propagating a parse
failure. -/
theorem claim_C7_counterexample :
    headers_get (mkInfo [("Content-Length", "")] (some [])).request "Content-Length" = some "" ∧
    pyInt "" = none ∧
    combined_size_instrumentation true true true
      (mkInfo [("Content-Length", "")] (some [])) M0 = Except.ok M0 := by
  refine ⟨by rfl, by rfl, by rfl⟩

/-- C7 (amended): a present Content-Length that is not a valid numeral
makes `request_size`, `response_size` and `full` propagate ValueError
(for `combined_size` the value must additionally be nonempty, since an
empty string is treated as absent and skipped); the failing value is never
recorded: the summary closures return no new state, and in `full` the byte
counter that would have received the value is unchanged. -/
theorem claim_C7_parse_failure_propagates (a b c : Bool) (info : Info) (M : Summary) (col : FullCollectors) :
    (∀ s, headers_get info.request "Content-Length" = some s → pyInt s = none →
      request_size_instrumentation a b c info M = Except.error PyErr.valueError) ∧
    (∀ resp s, info.response = some resp → headers_get resp "Content-Length" = some s →
      pyInt s = none →
      response_size_instrumentation a b c info M = Except.error PyErr.valueError) ∧
    (∀ resp s, info.response = some resp → headers_get info.request "Content-Length" = some s →
      s ≠ "" → pyInt s = none →
      combined_size_instrumentation a b c info M = Except.error PyErr.valueError) ∧
    (∀ resp s, info.response = some resp → headers_get resp "Content-Length" = some s →
      s ≠ "" → pyInt s = none →
      combined_size_instrumentation a b c info M = Except.error PyErr.valueError) ∧
    (∀ s, headers_get info.request "Content-Length" = some s → pyInt s = none →
      (full_instrumentation col info).2 = some PyErr.valueError ∧
      (full_instrumentation col info).1.in_size = col.in_size ∧
      (full_instrumentation col info).1.out_size = col.out_size) ∧
    (∀ resp s rn, info.response = some resp → headers_get resp "Content-Length" = some s →
      pyInt s = none →
      pyIntDefault0 (headers_get info.request "Content-Length") = Except.ok rn → 0 ≤ rn →
      (full_instrumentation col info).2 = some PyErr.valueError ∧
      (full_instrumentation col info).1.out_size = col.out_size) := by
  refine ⟨?_, ?_, ?_, ?_, ?_, ?_⟩
  · intro s hs hn
    simp [request_size_instrumentation, hs, pyIntE, hn]
  · intro resp s hresp hs hn
    simp [response_size_instrumentation, hresp, hs, pyIntE, hn]
  · intro resp s hresp hs hne hn
    have hts : (s == "") = false := by simp [hne]
    cases ht : truthy (headers_get resp "Content-Length") with
    | true =>
      simp [combined_size_instrumentation, hresp, hs, combined_content_length,
        truthy, hts, ht, pyIntE, hn]
    | false =>
      simp [combined_size_instrumentation, hresp, hs, combined_content_length,
        truthy, hts, ht, pyIntE, hn]
  · intro resp s hresp hs hne hn
    have hts : (s == "") = false := by simp [hne]
    rcases hr : headers_get info.request "Content-Length" with _ | sa
    · simp [combined_size_instrumentation, hresp, hr, hs, combined_content_length,
        truthy, hts, pyIntE, hn]
    · by_cases hsa : sa = ""
      · subst hsa
        simp [combined_size_instrumentation, hresp, hr, hs, combined_content_length,
          truthy, hts, pyIntE, hn]
      · rcases hpa : pyInt sa with _ | na
        · simp [combined_size_instrumentation, hresp, hr, hs, combined_content_length,
            truthy, hts, hsa, pyIntE, hpa, hn]
        · simp [combined_size_instrumentation, hresp, hr, hs, combined_content_length,
            truthy, hts, hsa, pyIntE, hpa, hn]
  · intro s hs hn
    have h1 : pyIntDefault0 (headers_get info.request "Content-Length") =
        Except.error PyErr.valueError := by
      rw [hs]; simp [pyIntDefault0, pyIntE, hn]
    refine ⟨?_, ?_, ?_⟩ <;> simp [full_instrumentation, h1]
  · intro resp s rn hresp hs hn hrq hge
    have h3 : pyIntDefault0 (headers_get resp "Content-Length") =
        Except.error PyErr.valueError := by
      rw [hs]; simp [pyIntDefault0, pyIntE, hn]
    have h2 : col.in_size.incBy rn =
        Except.ok { col.in_size with value := col.in_size.value + rn } := by
      simp [Counter.incBy, not_lt.mpr hge]
    constructor <;> simp [full_instrumentation, hrq, h2, hresp, h3]

/-- C7 witness: a Content-Length of "abc" on either side makes each
closure fail with ValueError. -/
theorem claim_C7_witness :
    request_size_instrumentation true true true
      (mkInfo [("Content-Length", "abc")] (some [])) M0 = Except.error PyErr.valueError ∧
    response_size_instrumentation true true true
      (mkInfo [] (some [("Content-Length", "abc")])) M0 = Except.error PyErr.valueError ∧
    combined_size_instrumentation true true true
      (mkInfo [("Content-Length", "abc")] (some [])) M0 = Except.error PyErr.valueError ∧
    combined_size_instrumentation true true true
      (mkInfo [] (some [("Content-Length", "abc")])) M0 = Except.error PyErr.valueError ∧
    (full_instrumentation fcF (mkInfo [("Content-Length", "abc")] (some []))).2 =
      some PyErr.valueError ∧
    (full_instrumentation fcF (mkInfo [] (some [("Content-Length", "abc")]))).2 =
      some PyErr.valueError := by
  have h1 := claim_C7_parse_failure_propagates true true true
    (mkInfo [("Content-Length", "abc")] (some [])) M0 fcF
  have h2 := claim_C7_parse_failure_propagates true true true
    (mkInfo [] (some [("Content-Length", "abc")])) M0 fcF
  exact ⟨h1.1 "abc" rfl (by decide),
         h2.2.1 [("Content-Length", "abc")] "abc" rfl rfl (by decide),
         h1.2.2.1 [] "abc" rfl rfl (by decide) (by decide),
         h2.2.2.2.1 [("Content-Length", "abc")] "abc" rfl rfl (by decide) (by decide),
         (h1.2.2.2.2.1 "abc" rfl (by decide)).1,
         (h2.2.2.2.2.2 [("Content-Length", "abc")] "abc" 0 rfl rfl (by decide) rfl (by decide)).1⟩

/-- C9 counterexample: with response None and a request Content-Length of
"abc", the `full` closure raises ValueError from the request-side parse
before the response is ever dereferenced, not AttributeError as the claim
states. -/
theorem claim_C9_counterexample :
    (mkInfo [("Content-Length", "abc")] none).response = none ∧
    (full_instrumentation fcF (mkInfo [("Content-Length", "abc")] none)).2 =
      some PyErr.valueError ∧
    (full_instrumentation fcF (mkInfo [("Content-Length", "abc")] none)).2 ≠
      some PyErr.attributeError := by
  refine ⟨rfl, by rfl, by decide⟩

/-- C9 (amended): on an `Info` with response None, the `response_size` and
`combined_size` closures raise AttributeError; the `full` closure raises
AttributeError provided its request-side Content-Length parse and increment
succeed (a malformed request header raises ValueError first); the `latency`
closure always completes, and `request_size` completes whenever the request
Content-Length is absent or a valid numeral. -/
theorem claim_C9_none_response (a b c : Bool) (info : Info) (M : Summary) (H : Histogram)
    (col : FullCollectors) (hresp : info.response = none) :
    response_size_instrumentation a b c info M = Except.error PyErr.attributeError ∧
    combined_size_instrumentation a b c info M = Except.error PyErr.attributeError ∧
    (∀ n, pyIntDefault0 (headers_get info.request "Content-Length") = Except.ok n → 0 ≤ n →
      (full_instrumentation col info).2 = some PyErr.attributeError) ∧
    (∃ lv, latency_instrumentation a b c info H = H.observeWith lv info.modified_duration) ∧
    (headers_get info.request "Content-Length" = none →
      request_size_instrumentation a b c info M = Except.ok M) ∧
    (∀ s n, headers_get info.request "Content-Length" = some s → pyInt s = some n →
      request_size_instrumentation a b c info M = Except.ok
        (summary_observe (_build_label_attribute_names a b c).1
          (_build_label_attribute_names a b c).2 info M n)) := by
  refine ⟨?_, ?_, ?_, ?_, ?_, ?_⟩
  · simp [response_size_instrumentation, hresp]
  · simp [combined_size_instrumentation, hresp]
  · intro n hn hge
    have h2 : col.in_size.incBy n =
        Except.ok { col.in_size with value := col.in_size.value + n } := by
      simp [Counter.incBy, not_lt.mpr hge]
    simp [full_instrumentation, hn, h2, hresp]
  · by_cases hl : (_build_label_attribute_names a b c).1 = []
    · exact ⟨[], by simp [latency_instrumentation, hl]⟩
    · exact ⟨(_build_label_attribute_names a b c).2.map (pgetattr info),
        by simp [latency_instrumentation, hl]⟩
  · intro hreq
    simp [request_size_instrumentation, hreq]
  · intro s n hs hn
    simp [request_size_instrumentation, hs, pyIntE, hn]

/-- C9 witness: on an `Info` with response None and no request headers,
`response_size`, `combined_size` and `full` raise AttributeError while
`latency` and `request_size` complete. -/
theorem claim_C9_witness :
    response_size_instrumentation true true true (mkInfo [] none) M0 =
      Except.error PyErr.attributeError ∧
    combined_size_instrumentation true true true (mkInfo [] none) M0 =
      Except.error PyErr.attributeError ∧
    (full_instrumentation fcF (mkInfo [] none)).2 = some PyErr.attributeError ∧
    (∃ lv, latency_instrumentation true true true (mkInfo [] none) latM =
      latM.observeWith lv (mkInfo [] none).modified_duration) ∧
    request_size_instrumentation true true true (mkInfo [] none) M0 = Except.ok M0 := by
  have h := claim_C9_none_response true true true (mkInfo [] none) M0 latM fcF rfl
  exact ⟨h.1, h.2.1, h.2.2.1 0 rfl (by decide), h.2.2.2.1, h.2.2.2.2.1 rfl⟩

/-- C10: the `combined_size` closure tests header presence by Python
truthiness of the value: a Content-Length present with an empty-string
value is treated exactly as if absent, so with both present but empty
nothing is recorded, and an empty value on one side falls back to the
other side's value alone. -/
theorem claim_C10_empty_string_as_absent (a b c : Bool) (info : Info) (resp : Headers) (M : Summary)
    (hresp : info.response = some resp) :
    (headers_get info.request "Content-Length" = some "" →
      headers_get resp "Content-Length" = some "" →
      combined_size_instrumentation a b c info M = Except.ok M) ∧
    (∀ sb nb, headers_get info.request "Content-Length" = some "" →
      headers_get resp "Content-Length" = some sb → pyInt sb = some nb →
      combined_size_instrumentation a b c info M = Except.ok
        (summary_observe (_build_label_attribute_names a b c).1
          (_build_label_attribute_names a b c).2 info M nb)) ∧
    (∀ sa na, headers_get info.request "Content-Length" = some sa → pyInt sa = some na →
      headers_get resp "Content-Length" = some "" →
      combined_size_instrumentation a b c info M = Except.ok
        (summary_observe (_build_label_attribute_names a b c).1
          (_build_label_attribute_names a b c).2 info M na)) := by
  refine ⟨?_, ?_, ?_⟩
  · intro hreq hres
    simp [combined_size_instrumentation, hresp, hreq, hres, combined_content_length, truthy]
  · intro sb nb hreq hsb hnb
    simp [combined_size_instrumentation, hresp, hreq, hsb, combined_content_length,
      truthy, pyInt_some_ne_empty hnb, pyIntE, hnb]
  · intro sa na hsa hna hres
    simp [combined_size_instrumentation, hresp, hsa, hres, combined_content_length,
      truthy, pyInt_some_ne_empty hna, pyIntE, hna]

/-- C10 witness: both headers empty record nothing; an empty request value
with response 50 records 50; request 100 with an empty response value
records 100. -/
theorem claim_C10_witness :
    combined_size_instrumentation true true true
      (mkInfo [("Content-Length", "")] (some [("Content-Length", "")])) M0 = Except.ok M0 ∧
    combined_size_instrumentation true true true
      (mkInfo [("Content-Length", "")] (some [("Content-Length", "50")])) M0 =
      Except.ok (summary_observe (_build_label_attribute_names true true true).1
        (_build_label_attribute_names true true true).2
        (mkInfo [("Content-Length", "")] (some [("Content-Length", "50")])) M0 50) ∧
    combined_size_instrumentation true true true
      (mkInfo [("Content-Length", "100")] (some [("Content-Length", "")])) M0 =
      Except.ok (summary_observe (_build_label_attribute_names true true true).1
        (_build_label_attribute_names true true true).2
        (mkInfo [("Content-Length", "100")] (some [("Content-Length", "")])) M0 100) := by
  have ha := claim_C10_empty_string_as_absent true true true
    (mkInfo [("Content-Length", "")] (some [("Content-Length", "")])) [("Content-Length", "")] M0 rfl
  have hb := claim_C10_empty_string_as_absent true true true
    (mkInfo [("Content-Length", "")] (some [("Content-Length", "50")])) [("Content-Length", "50")] M0 rfl
  have hc := claim_C10_empty_string_as_absent true true true
    (mkInfo [("Content-Length", "100")] (some [("Content-Length", "")])) [("Content-Length", "")] M0 rfl
  exact ⟨ha.1 rfl rfl, hb.2.1 "50" 50 rfl rfl (by decide), hc.2.2 "100" 100 rfl (by decide) rfl⟩
